import Mathlib

/-!
Verification of the SafeBox backend core (src/backend-db/src/app.ts):
the event-derivation state machine for vibration/tilt alerts, the
safe-status change detector, heartbeat/health classification, chart
bucket averaging and the explorer sort/paginate pipeline.

Timestamps are modelled as integer milliseconds since the epoch
(JavaScript Date.getTime()); sensor values as exact rationals.
Maps keyed by strings are modelled as functions String to Option.
-/

/-- Milliseconds since the epoch, the value of Date.getTime(). -/
abbrev Millis := Int

/-- One event_log record, the arguments of
createEventLog(type, content, safeId, severity) in app.ts. -/
structure EventLogEntry where
  type : String
  content : String
  safeId : String
  severity : String
deriving DecidableEq, Repr

/-- The safe lock status, the zod enum of "open", "lock", "unlock". -/
inductive SafeStatus where
  | sOpen
  | sLock
  | sUnlock
deriving DecidableEq, Repr

/-- Per (safeId, alertKind) alert state, the map value
in alertState: triggered flag and lastTriggered (Date or null). -/
structure AlertSt where
  triggered : Bool
  lastTriggered : Option Millis
deriving DecidableEq, Repr

/-- The constant ALERT_COOLDOWN_MS = 5000 from app.ts line 40. -/
def ALERT_COOLDOWN_MS : Millis := 5000

/-- The event written on a vibration trigger:
createEventLog("Hit", "Strong impact detected on panel.", safeId, "warning"). -/
def hitEvent (safeId : String) : EventLogEntry :=
  ⟨"Hit", "Strong impact detected on panel.", safeId, "warning"⟩

/-- The event written on a tilt trigger:
createEventLog("Abnormal tilt detected", "Safe has been tilted abnormally.", safeId, "warning"). -/
def tiltEvent (safeId : String) : EventLogEntry :=
  ⟨"Abnormal tilt detected", "Safe has been tilted abnormally.", safeId, "warning"⟩

/-- Vibration branch of handleSensorData (app.ts lines 145-162).
First component: the state written into alertState, if the code calls
alertState.set at all on this sample; second: the emitted event, if any.
The conditions mirror the source: value > 3000 strict; the triggered
branch fires only from untriggered state; the reset branch needs a
non-null lastTriggered and now - lastTriggered > ALERT_COOLDOWN_MS. -/
def vibWrite (safeId : String) (cur : AlertSt) (value : ℚ) (now : Millis) :
    Option AlertSt × Option EventLogEntry :=
  let isHighVibration := 3000 < value
  if isHighVibration ∧ cur.triggered = false then
    (some ⟨true, some now⟩, some (hitEvent safeId))
  else if ¬isHighVibration ∧ cur.triggered = true then
    (match cur.lastTriggered with
     | some t => if ALERT_COOLDOWN_MS < now - t then some ⟨false, none⟩ else none
     | none => none,
     none)
  else
    (none, none)

/-- Tilt branch of handleSensorData (app.ts lines 164-181); identical
shape with threshold value > 3.5 and the tilt event. -/
def tiltWrite (safeId : String) (cur : AlertSt) (value : ℚ) (now : Millis) :
    Option AlertSt × Option EventLogEntry :=
  let isAbnormalTilt := 7/2 < value
  if isAbnormalTilt ∧ cur.triggered = false then
    (some ⟨true, some now⟩, some (tiltEvent safeId))
  else if ¬isAbnormalTilt ∧ cur.triggered = true then
    (match cur.lastTriggered with
     | some t => if ALERT_COOLDOWN_MS < now - t then some ⟨false, none⟩ else none
     | none => none,
     none)
  else
    (none, none)

/-- Effective per-key vibration transition: the state read with default
(triggered := false, lastTriggered := null), combined with the optional
write of vibWrite; when the code writes nothing the key keeps the read
value. -/
def vibStep (safeId : String) (cur : AlertSt) (value : ℚ) (now : Millis) :
    AlertSt × Option EventLogEntry :=
  ((vibWrite safeId cur value now).1.getD cur, (vibWrite safeId cur value now).2)

/-- Effective per-key tilt transition, as vibStep. -/
def tiltStep (safeId : String) (cur : AlertSt) (value : ℚ) (now : Millis) :
    AlertSt × Option EventLogEntry :=
  ((tiltWrite safeId cur value now).1.getD cur, (tiltWrite safeId cur value now).2)

/-- Processing of a sequence of vibration samples (value, arrival time)
for one safe, collecting the emitted events in order. -/
def vibRun (safeId : String) (st : AlertSt) (samples : List (ℚ × Millis)) :
    AlertSt × List EventLogEntry :=
  match samples with
  | [] => (st, [])
  | (v, t) :: rest =>
    let s := vibStep safeId st v t
    let r := vibRun safeId s.1 rest
    (r.1, s.2.toList ++ r.2)

/-- The mutable module-level maps of app.ts: alertState (keyed
"safeId:alertType"), lastMessageTime and lastSafeStatus (keyed safeId). -/
structure ServerState where
  alertState : String → Option AlertSt
  lastMessageTime : String → Option Millis
  lastSafeStatus : String → Option SafeStatus

/-- The all-empty maps at process start. -/
def initialState : ServerState :=
  ⟨fun _ => none, fun _ => none, fun _ => none⟩

/-- A validated sensorDataSchema payload. -/
structure SensorMsg where
  sensorType : String
  value : ℚ
  unit : Option String
  safeId : String

/-- A validated statusSchema payload (safeId optional). -/
structure StatusMsg where
  status : SafeStatus
  safeId : Option String

/-- A validated rotationDataSchema payload. -/
structure RotationMsg where
  alpha : ℚ
  beta : ℚ
  gamma : ℚ
  safeId : String

/-- Application of an optional alertState.set: when the source branch
wrote a state, store it under the key; otherwise leave the map alone. -/
def applyAlertWrite (st : ServerState) (key : String) (w : Option AlertSt) : ServerState :=
  match w with
  | some s => { st with alertState := fun k => if k = key then some s else st.alertState k }
  | none => st

/-- handleSensorData (app.ts lines 127-184): sets
lastMessageTime[safeId] = now, then runs the vibration branch under key
safeId ++ ":vibration" and the tilt branch under key safeId ++ ":tilt",
each writing alertState only when the corresponding source branch calls
alertState.set. The Influx point write is external persistence and out
of the modelled state. Returns the new state and the emitted events. -/
def handleSensorData (st : ServerState) (d : SensorMsg) (now : Millis) :
    ServerState × List EventLogEntry :=
  let st1 : ServerState :=
    { st with lastMessageTime := fun id => if id = d.safeId then some now else st.lastMessageTime id }
  let vibKey := d.safeId ++ ":vibration"
  let p1 : ServerState × List EventLogEntry :=
    if d.sensorType = "vibration" then
      let cur := (st1.alertState vibKey).getD ⟨false, none⟩
      let w := vibWrite d.safeId cur d.value now
      (applyAlertWrite st1 vibKey w.1, w.2.toList)
    else (st1, [])
  let st2 := p1.1
  let tiltKey := d.safeId ++ ":tilt"
  let p2 : ServerState × List EventLogEntry :=
    if d.sensorType = "tilt" then
      let cur := (st2.alertState tiltKey).getD ⟨false, none⟩
      let w := tiltWrite d.safeId cur d.value now
      (applyAlertWrite st2 tiltKey w.1, w.2.toList)
    else (st2, [])
  (p2.1, p1.2 ++ p2.2)

/-- The event emitted for a status change (app.ts lines 206-212). -/
def statusEvent : SafeStatus → String → EventLogEntry
  | SafeStatus.sOpen, id =>
    ⟨"Open with alarm", "Lid opened while armed. Siren triggered.", id, "critical"⟩
  | SafeStatus.sUnlock, id =>
    ⟨"Unlock", "System disarmed(unlock) by user.", id, "info"⟩
  | SafeStatus.sLock, id =>
    ⟨"Lock", "System armed.", id, "info"⟩

/-- handleSafeStatus (app.ts lines 190-216): safeId defaults to
"safe-001"; if the incoming status differs from lastSafeStatus[safeId]
(including the case of no cached value) the cache is updated and exactly
one mapped event is emitted, otherwise nothing happens. Note the source
never touches lastMessageTime here. -/
def handleSafeStatus (st : ServerState) (msg : StatusMsg) :
    ServerState × List EventLogEntry :=
  let safeId := msg.safeId.getD "safe-001"
  if st.lastSafeStatus safeId ≠ some msg.status then
    ({ st with lastSafeStatus := fun id => if id = safeId then some msg.status else st.lastSafeStatus id },
     [statusEvent msg.status safeId])
  else
    (st, [])

/-- handleRotationData (app.ts lines 219-232): writes the Influx point
only; no in-memory state is touched and no event is emitted. -/
def handleRotationData (st : ServerState) (_d : RotationMsg) :
    ServerState × List EventLogEntry :=
  (st, [])

/-- HealthStatus values of the /api/health endpoint. -/
inductive HealthStatus where
  | OK
  | WARN
  | ERROR
deriving DecidableEq, Repr

/-- connectionStatus of /api/health (app.ts lines 477-488): initialised
to ERROR; when lastMessageTime has an entry, timeDiff at most 5000 gives
OK, at most 30000 gives WARN, otherwise ERROR; with no entry the
initial ERROR stands. -/
def connectionStatus (lastMessage : Option Millis) (now : Millis) : HealthStatus :=
  match lastMessage with
  | none => HealthStatus.ERROR
  | some t =>
    let timeDiff := now - t
    if timeDiff ≤ 5000 then HealthStatus.OK
    else if timeDiff ≤ 30000 then HealthStatus.WARN
    else HealthStatus.ERROR

/-- The capitalisation status.charAt(0).toUpperCase() + status.slice(1)
applied to the status enum words. -/
def capitalizeStatus : SafeStatus → String
  | SafeStatus.sOpen => "Open"
  | SafeStatus.sLock => "Lock"
  | SafeStatus.sUnlock => "Unlock"

/-- The /api/health computation of the Prisma variant
(src/unnamed/part_001 lines 254-279): status starts from the latest
persisted safe status (capitalised) or "WARN" when absent; then the
latest sensor log overrides with "WARN" when older than 10 seconds, and
absence of any sensor log forces "WARN". -/
def part1Health (latestStatus : Option SafeStatus) (latestSensorAt : Option Millis)
    (now : Millis) : String :=
  let status :=
    match latestStatus with
    | some st => capitalizeStatus st
    | none => "WARN"
  match latestSensorAt with
  | some ts => if 10 < ((now - ts : ℤ) : ℚ) / 1000 then "WARN" else status
  | none => "WARN"

/-- parseFloat(x.toFixed(2)): rounding to 2 decimal places. -/
def round2 (q : ℚ) : ℚ := (round (q * 100) : ℤ) / 100

/-- Per-bucket per-field value of /api/charts (app.ts lines 566-601):
each sample value is rounded to 2 decimals when pushed into the bucket,
and the field yields the plain arithmetic mean of the bucketed values
when the bucket is nonempty, null otherwise. -/
def chartFieldValue (raw : List ℚ) : Option ℚ :=
  let bucket := raw.map round2
  if 0 < bucket.length then some (bucket.sum / (bucket.length : ℚ)) else none

/-- Modelled from the spec: the spec sentence "computes arithmetic mean
per bucket per field, rounds to 2 decimal places" read literally, for
refinement comparison with chartFieldValue: the mean of the raw values,
rounded afterwards. -/
def specChartFieldValue (raw : List ℚ) : Option ℚ :=
  if 0 < raw.length then some (round2 (raw.sum / (raw.length : ℚ))) else none

/-- Tail of /api/explorer (app.ts lines 770-796): the in-memory records
are sorted with the request comparator (results.sort, a stable sort),
then paginated with results.slice(offset, offset + limit), and total is
the pre-pagination results.length. The comparator is abstracted as the
boolean relation le driving the stable merge sort. -/
def explorerRespond {α : Type} (records : List α) (le : α → α → Bool)
    (limit offsetN : ℕ) : List α × ℕ :=
  let sorted := records.mergeSort le
  ((sorted.drop offsetN).take limit, sorted.length)

/-! Helper lemmas about the per-key vibration transition. -/

/-- While triggered, no sample emits a vibration event: the firing
branch requires an untriggered state and the reset branch emits nothing. -/
theorem vibStep_triggered_emits_none (sid : String) (cur : AlertSt) (v : ℚ) (now : Millis)
    (h : cur.triggered = true) : (vibStep sid cur v now).2 = none := by
  simp only [vibStep, vibWrite]
  split_ifs with h1 h2
  · exact absurd h1.2 (by simp [h])
  · rfl
  · rfl

/-- While triggered and the value stays above threshold, the state is
unchanged (neither branch writes). -/
theorem vibStep_triggered_high_state (sid : String) (cur : AlertSt) (v : ℚ) (now : Millis)
    (h : cur.triggered = true) (hv : 3000 < v) : (vibStep sid cur v now).1 = cur := by
  simp only [vibStep, vibWrite]
  split_ifs with h1 h2
  · exact absurd h1.2 (by simp [h])
  · exact absurd hv h2.1
  · rfl

/-- Firing step: from an untriggered state an above-threshold sample
writes (triggered, lastTriggered = now) and emits the Hit event. -/
theorem vibStep_fires (sid : String) (cur : AlertSt) (v : ℚ) (now : Millis)
    (h : cur.triggered = false) (hv : 3000 < v) :
    vibStep sid cur v now = (⟨true, some now⟩, some (hitEvent sid)) := by
  simp only [vibStep, vibWrite]
  rw [if_pos ⟨hv, h⟩]
  rfl

/-- A run of above-threshold samples started in a triggered state emits
no event at all. -/
theorem vibRun_triggered_high (sid : String) (st : AlertSt) (samples : List (ℚ × Millis))
    (h : st.triggered = true) (hall : ∀ p ∈ samples, (3000:ℚ) < p.1) :
    (vibRun sid st samples).2 = [] := by
  induction samples generalizing st with
  | nil => rfl
  | cons p rest ih =>
    obtain ⟨v, t⟩ := p
    have hv : (3000:ℚ) < v := hall ⟨v, t⟩ (List.mem_cons_self _ _)
    have hstate := vibStep_triggered_high_state sid st v t h hv
    have hev := vibStep_triggered_emits_none sid st v t h
    show ((vibRun sid (vibStep sid st v t).1 rest).1,
      (vibStep sid st v t).2.toList ++ (vibRun sid (vibStep sid st v t).1 rest).2).2 = []
    rw [hev, hstate]
    simp [ih st h (fun q hq => hall q (List.mem_cons_of_mem _ hq))]

/-- C1: for a vibration sample sequence whose derived condition (value
above the 3000 threshold) holds continuously, at most one Hit event is
emitted for the excursion; moreover once the alert state is Triggered no
sample whatsoever (above threshold, or below threshold whether inside or
outside the cooldown) emits an event, since the reset branch is silent. -/
theorem vib_single_event (sid : String) :
    (∀ (cur : AlertSt) (v : ℚ) (now : Millis),
      cur.triggered = true → (vibStep sid cur v now).2 = none) ∧
    (∀ (st : AlertSt) (samples : List (ℚ × Millis)),
      (∀ p ∈ samples, (3000:ℚ) < p.1) → (vibRun sid st samples).2.length ≤ 1) := by
  refine ⟨fun cur v now h => vibStep_triggered_emits_none sid cur v now h,
    fun st samples hall => ?_⟩
  cases hst : st.triggered with
  | true =>
    rw [vibRun_triggered_high sid st samples hst hall]
    simp
  | false =>
    cases samples with
    | nil => simp [vibRun]
    | cons p rest =>
      obtain ⟨v, t⟩ := p
      have hv : (3000:ℚ) < v := hall ⟨v, t⟩ (List.mem_cons_self _ _)
      have hfire := vibStep_fires sid st v t hst hv
      show (((vibRun sid (vibStep sid st v t).1 rest).1,
        (vibStep sid st v t).2.toList ++ (vibRun sid (vibStep sid st v t).1 rest).2).2).length ≤ 1
      rw [hfire]
      have hrest : (vibRun sid (⟨true, some t⟩ : AlertSt) rest).2 = [] :=
        vibRun_triggered_high sid _ rest rfl (fun q hq => hall q (List.mem_cons_of_mem _ hq))
      simp [hrest]

/-- Witness for C1: a continuously-high run from the normal state emits
exactly one event (length 1), and a high sample in the triggered state
emits nothing. -/
theorem vib_single_event_witness :
    (vibRun "safe-001" ⟨false, none⟩ [(3500, 0), (3600, 1), (3700, 2)]).2.length ≤ 1 ∧
    (vibStep "safe-001" ⟨true, some 0⟩ 3500 1).2 = none :=
  ⟨(vib_single_event "safe-001").2 ⟨false, none⟩ _ (by decide),
   (vib_single_event "safe-001").1 ⟨true, some 0⟩ 3500 1 rfl⟩

/-- C2 counterexample: trace 3500 at t=0 (fires), 100 at t=1000 (below
threshold while Triggered, inside the cooldown: no reset), 3500 at
t=10000 (the cooldown has elapsed since lastTriggered, yet the state was
never reset, so this above-threshold sample emits nothing). The claim
predicts a new Hit event from the last sample; the code emits only the
first event. -/
theorem cooldown_reset_cex :
    (vibRun "safe-001" ⟨false, none⟩ [(3500, 0), (100, 1000), (3500, 10000)]).2 =
      [hitEvent "safe-001"] ∧
    (vibStep "safe-001" ⟨true, some 0⟩ 3500 10000).2 = none := by decide

/-- C2 amended: the Triggered to Normal reset happens only when a
below-threshold sample is itself observed after the cooldown has elapsed
since lastTriggeredAt; that reset is silent, and a subsequent
above-threshold sample then emits exactly one new Hit event. -/
theorem cooldown_reset_amended (sid : String) (t now now2 : Millis) (v v2 : ℚ)
    (hlow : ¬ (3000:ℚ) < v) (hcool : ALERT_COOLDOWN_MS < now - t) (hhigh : (3000:ℚ) < v2) :
    vibStep sid ⟨true, some t⟩ v now = (⟨false, none⟩, none) ∧
    vibStep sid ⟨false, none⟩ v2 now2 = (⟨true, some now2⟩, some (hitEvent sid)) := by
  constructor
  · simp only [vibStep, vibWrite]
    rw [if_neg (by simp [hlow]), if_pos ⟨hlow, trivial⟩]
    simp [hcool]
  · exact vibStep_fires sid ⟨false, none⟩ v2 now2 rfl hhigh

/-- Witness for C2 amended: a below-threshold sample 6 seconds after the
trigger resets silently, and the next above-threshold sample fires. -/
theorem cooldown_reset_amended_witness :
    vibStep "safe-001" ⟨true, some 0⟩ 100 6000 = (⟨false, none⟩, none) ∧
    vibStep "safe-001" ⟨false, none⟩ 3500 7000 = (⟨true, some 7000⟩, some (hitEvent "safe-001")) :=
  cooldown_reset_amended "safe-001" 0 6000 7000 100 3500 (by norm_num)
    (by norm_num [ALERT_COOLDOWN_MS]) (by norm_num)

/-- C3: a status event is emitted iff the incoming status differs from
the cached last status for the device (a missing cache entry counts as
different); on a change the cache is updated and exactly one event is
emitted with the mapping open to critical, unlock to info, lock to info;
on an equal status nothing happens at all. -/
theorem status_change_iff (st : ServerState) (msg : StatusMsg) :
    ((handleSafeStatus st msg).2 ≠ [] ↔
      st.lastSafeStatus (msg.safeId.getD "safe-001") ≠ some msg.status) ∧
    (st.lastSafeStatus (msg.safeId.getD "safe-001") ≠ some msg.status →
      (handleSafeStatus st msg).1.lastSafeStatus (msg.safeId.getD "safe-001") = some msg.status ∧
      (handleSafeStatus st msg).2 = [statusEvent msg.status (msg.safeId.getD "safe-001")]) ∧
    (st.lastSafeStatus (msg.safeId.getD "safe-001") = some msg.status →
      handleSafeStatus st msg = (st, [])) ∧
    (∀ id, (statusEvent SafeStatus.sOpen id).severity = "critical" ∧
      (statusEvent SafeStatus.sUnlock id).severity = "info" ∧
      (statusEvent SafeStatus.sLock id).severity = "info") := by
  by_cases h : st.lastSafeStatus (msg.safeId.getD "safe-001") = some msg.status
  · refine ⟨?_, fun hc => absurd h hc, fun _ => ?_, fun id => ⟨rfl, rfl, rfl⟩⟩ <;>
      simp [handleSafeStatus, h]
  · refine ⟨?_, fun _ => ⟨?_, ?_⟩, fun hc => absurd hc h, fun id => ⟨rfl, rfl, rfl⟩⟩ <;>
      simp [handleSafeStatus, h]

/-- Witness for C3: from the empty cache an incoming open status emits
the critical open event and caches the status; repeating it emits
nothing. -/
theorem status_change_iff_witness :
    (handleSafeStatus initialState ⟨SafeStatus.sOpen, none⟩).2 =
      [statusEvent SafeStatus.sOpen "safe-001"] ∧
    (handleSafeStatus initialState ⟨SafeStatus.sOpen, none⟩).1.lastSafeStatus "safe-001" =
      some SafeStatus.sOpen :=
  ⟨((status_change_iff initialState ⟨SafeStatus.sOpen, none⟩).2.1
      (by simp [initialState])).2,
   ((status_change_iff initialState ⟨SafeStatus.sOpen, none⟩).2.1
      (by simp [initialState])).1⟩

/-- Projection fact: applying an optional alertState write never touches
the heartbeat map. -/
theorem applyAlertWrite_lastMessageTime (st : ServerState) (key : String) (w : Option AlertSt) :
    (applyAlertWrite st key w).lastMessageTime = st.lastMessageTime := by
  cases w <;> rfl

/-- C9 counterexample: ingesting a status record and ingesting a
rotation record leave lastMessageTime untouched (here: still absent for
the very device that was ingested), so not every successfully ingested
record kind updates the per-device heartbeat state. -/
theorem heartbeat_all_kinds_cex :
    (handleSafeStatus initialState ⟨SafeStatus.sLock, some "safe-001"⟩).1.lastMessageTime
      "safe-001" = none ∧
    (handleRotationData initialState ⟨1, 2, 3, "safe-001"⟩).1.lastMessageTime
      "safe-001" = none := by
  constructor
  · simp [handleSafeStatus, initialState]
  · rfl

/-- C9 amended: only sensor ingestion updates the heartbeat: after
handleSensorData the heartbeat entry of the ingested device equals the
ingestion time and every other device's entry is unchanged, while
handleSafeStatus leaves the whole heartbeat map unchanged and
handleRotationData changes no in-memory state and emits nothing. -/
theorem heartbeat_amended :
    (∀ (st : ServerState) (d : SensorMsg) (now : Millis) (id : String),
      (handleSensorData st d now).1.lastMessageTime id =
        if id = d.safeId then some now else st.lastMessageTime id) ∧
    (∀ (st : ServerState) (msg : StatusMsg),
      (handleSafeStatus st msg).1.lastMessageTime = st.lastMessageTime) ∧
    (∀ (st : ServerState) (r : RotationMsg), handleRotationData st r = (st, [])) := by
  refine ⟨fun st d now id => ?_, fun st msg => ?_, fun st r => rfl⟩
  · simp only [handleSensorData]
    split_ifs <;>
      simp_all [applyAlertWrite_lastMessageTime]
  · simp only [handleSafeStatus]
    split_ifs <;> rfl

/-- C10 counterexample: a vibration sample exactly at the 3000 threshold
is treated as condition-false, and from a Triggered state past the
cooldown it resets the alert state: the state is changed, contradicting
the claim that an at-threshold sample leaves the alert state unchanged. -/
theorem threshold_equality_cex :
    (vibStep "safe-001" ⟨true, some 0⟩ 3000 10000).1 = AlertSt.mk false none ∧
    AlertSt.mk false none ≠ AlertSt.mk true (some 0) ∧
    (vibStep "safe-001" ⟨true, some 0⟩ 3000 10000).2 = none := by decide

/-- C10 amended: at-threshold samples (vibration 3000, tilt 3.5) make
the derived condition false, so no event is emitted and a Normal state
is left unchanged; only strictly greater values can produce the Normal
to Triggered transition. A Triggered state may however still be reset by
an at-threshold sample once the cooldown has elapsed, since the sample
counts as condition-false. -/
theorem threshold_equality_amended (sid : String) (cur : AlertSt) (now : Millis) :
    (vibStep sid cur 3000 now).2 = none ∧
    (tiltStep sid cur (7/2) now).2 = none ∧
    (cur.triggered = false →
      vibStep sid cur 3000 now = (cur, none) ∧ tiltStep sid cur (7/2) now = (cur, none)) ∧
    (∀ v : ℚ, (vibStep sid cur v now).1.triggered = true → cur.triggered = true ∨ 3000 < v) ∧
    (∀ v : ℚ, (tiltStep sid cur v now).1.triggered = true → cur.triggered = true ∨ 7/2 < v) := by
  have hv : ¬ ((3000:ℚ) < 3000) := by norm_num
  have ht : ¬ ((7:ℚ)/2 < 7/2) := by norm_num
  refine ⟨?_, ?_, fun hn => ⟨?_, ?_⟩, fun v hv2 => ?_, fun v ht2 => ?_⟩
  · simp only [vibStep, vibWrite]
    split_ifs with h1 h2
    · exact absurd h1.1 hv
    · rfl
    · rfl
  · simp only [tiltStep, tiltWrite]
    split_ifs with h1 h2
    · exact absurd h1.1 ht
    · rfl
    · rfl
  · simp only [vibStep, vibWrite]
    rw [if_neg (by simp [hv]), if_neg (by simp [hn])]
    rfl
  · simp only [tiltStep, tiltWrite]
    rw [if_neg (by simp [ht]), if_neg (by simp [hn])]
    rfl
  · by_cases htr : cur.triggered = true
    · exact Or.inl htr
    · by_cases hgt : (3000:ℚ) < v
      · exact Or.inr hgt
      · exfalso
        have : (vibStep sid cur v now).1 = cur := by
          simp only [vibStep, vibWrite]
          rw [if_neg (by simp [hgt]), if_neg (by simp [htr])]
          rfl
        rw [this] at hv2
        exact htr hv2
  · by_cases htr : cur.triggered = true
    · exact Or.inl htr
    · by_cases hgt : (7:ℚ)/2 < v
      · exact Or.inr hgt
      · exfalso
        have : (tiltStep sid cur v now).1 = cur := by
          simp only [tiltStep, tiltWrite]
          rw [if_neg (by simp [hgt]), if_neg (by simp [htr])]
          rfl
        rw [this] at ht2
        exact htr ht2

/-- Witness for C10 amended: a Normal state and an at-threshold sample
leave everything unchanged, and a 3500 sample that did trigger obeys the
strictly-greater disjunction. -/
theorem threshold_equality_amended_witness :
    vibStep "safe-001" ⟨false, none⟩ 3000 0 = (⟨false, none⟩, none) ∧
    ((AlertSt.mk false none).triggered = true ∨ (3000:ℚ) < 3500) :=
  ⟨((threshold_equality_amended "safe-001" ⟨false, none⟩ 0).2.2.1 rfl).1,
   (threshold_equality_amended "safe-001" ⟨false, none⟩ 0).2.2.2.1 3500 (by decide)⟩

/-- C4 counterexample: for bucket values 1, 1, 2 the code yields the
plain mean 4/3 of the (individually rounded) values, while the claimed
"mean rounded to 2 decimal places" would be 1.33; the two differ. -/
theorem chart_rounding_cex :
    chartFieldValue [1, 1, 2] = some (4/3) ∧
    specChartFieldValue [1, 1, 2] = some (133/100) ∧
    ((4:ℚ)/3) ≠ (133:ℚ)/100 := by
  refine ⟨?_, ?_, by norm_num⟩
  · norm_num [chartFieldValue, round2, round_eq]
  · norm_num [specChartFieldValue, round2, round_eq]

/-- C4 amended: a bucket field with no samples yields null (never 0),
and a field with samples yields the plain arithmetic mean of the
bucketed values, each value having been rounded to 2 decimal places when
pushed into the bucket; the mean itself is not rounded. The claim's own
example holds: values 1.0 and 3.0 average to 2.0. -/
theorem chart_bucket_amended :
    (∀ raw : List ℚ, chartFieldValue raw = none ↔ raw = []) ∧
    (∀ raw : List ℚ, raw ≠ [] →
      chartFieldValue raw =
        some ((raw.map round2).sum / ((raw.map round2).length : ℚ))) ∧
    chartFieldValue [1, 3] = some 2 := by
  refine ⟨fun raw => ?_, fun raw h => ?_, by norm_num [chartFieldValue, round2, round_eq]⟩
  · cases raw <;> simp [chartFieldValue]
  · cases raw with
    | nil => exact absurd rfl h
    | cons a l => simp [chartFieldValue]

/-- Witness for C4 amended: the nonempty-bucket equation evaluated at
the concrete bucket 1, 1, 2. -/
theorem chart_bucket_amended_witness :
    chartFieldValue [1, 1, 2] =
      some ((([1, 1, 2] : List ℚ).map round2).sum /
        ((([1, 1, 2] : List ℚ).map round2).length : ℚ)) :=
  chart_bucket_amended.2.1 [1, 1, 2] (by simp)

/-- C5: the explorer applies pagination after sorting: for any 120
matching records and any comparator, the response total is the
pre-pagination count 120, the returned page has length 50, and the page
entries are exactly the sorted records at ranks 51 through 100 (indices
50 + i of the sorted list). -/
theorem explorer_pagination (α : Type) (records : List α) (le : α → α → Bool)
    (h : records.length = 120) :
    (explorerRespond records le 50 50).2 = 120 ∧
    (explorerRespond records le 50 50).1.length = 50 ∧
    ∀ i : ℕ, i < 50 →
      (explorerRespond records le 50 50).1[i]? = (records.mergeSort le)[50 + i]? := by
  have hs : (records.mergeSort le).length = 120 := by
    rw [List.length_mergeSort, h]
  refine ⟨?_, ?_, fun i hi => ?_⟩
  · simpa [explorerRespond] using hs
  · simp [explorerRespond, List.length_take, List.length_drop, hs]
  · simp [explorerRespond, List.getElem?_take, List.getElem?_drop, hi]

/-- Witness for C5 at the concrete record list 0..119 sorted by the
usual order. -/
theorem explorer_pagination_witness :
    (explorerRespond (List.range 120) (fun a b => decide (a ≤ b)) 50 50).2 = 120 ∧
    (explorerRespond (List.range 120) (fun a b => decide (a ≤ b)) 50 50).1.length = 50 ∧
    (explorerRespond (List.range 120) (fun a b => decide (a ≤ b)) 50 50).1[0]? =
      ((List.range 120).mergeSort (fun a b => decide (a ≤ b)))[50]? := by
  have h := explorer_pagination ℕ (List.range 120) (fun a b => decide (a ≤ b)) (by simp)
  exact ⟨h.1, h.2.1, h.2.2 0 (by norm_num)⟩

/-- C7: with a recorded heartbeat the reported status is a pure function
of the heartbeat age: age at most 5000 ms gives OK, age over 5000 and at
most 30000 ms gives WARN, and any greater age gives ERROR. -/
theorem health_tiers (t now : Millis) :
    (now - t ≤ 5000 → connectionStatus (some t) now = HealthStatus.OK) ∧
    (5000 < now - t → now - t ≤ 30000 → connectionStatus (some t) now = HealthStatus.WARN) ∧
    (30000 < now - t → connectionStatus (some t) now = HealthStatus.ERROR) := by
  refine ⟨fun h => ?_, fun h1 h2 => ?_, fun h => ?_⟩ <;>
    simp only [connectionStatus] <;> split_ifs <;> first | rfl | (exfalso; linarith)

/-- Witness for C7: a heartbeat 40 seconds old classifies as ERROR. -/
theorem health_tiers_witness : connectionStatus (some 0) 40000 = HealthStatus.ERROR :=
  (health_tiers 0 40000).2.2 (by norm_num)

/-- C8 counterexample: in the backend-db variant a device with no
heartbeat entry at all is classified ERROR, not WARN: connectionStatus
is initialised to ERROR and the recency branch is skipped entirely. -/
theorem health_no_data_cex :
    connectionStatus none 0 = HealthStatus.ERROR ∧ HealthStatus.ERROR ≠ HealthStatus.WARN :=
  ⟨rfl, by decide⟩

/-- C8 amended: the health computation is total (it always yields one of
OK, WARN, ERROR, never an exception); absence of heartbeat data yields
ERROR in the backend-db variant, while the Prisma variant of
src/unnamed/part_001 yields WARN when no sensor data is persisted. -/
theorem health_never_throws_amended :
    (∀ (lm : Option Millis) (now : Millis),
      connectionStatus lm now = HealthStatus.OK ∨
      connectionStatus lm now = HealthStatus.WARN ∨
      connectionStatus lm now = HealthStatus.ERROR) ∧
    (∀ now : Millis, connectionStatus none now = HealthStatus.ERROR) ∧
    (∀ now : Millis, part1Health none none now = "WARN") := by
  refine ⟨fun lm now => ?_, fun now => rfl, fun now => rfl⟩
  cases lm with
  | none => exact Or.inr (Or.inr rfl)
  | some t =>
    simp only [connectionStatus]
    split_ifs <;> simp
